import Mathlib

/-!
Verification of the aws-grobid package against its specification.

The package provisions a single EC2 instance running a containerized GROBID
service.  We shallowly embed `src/aws_grobid/core.py` and the package import in
`src/aws_grobid/__init__.py`.  The cloud provider (boto3/EC2) is modelled as an
oracle structure `AwsEnv` holding the responses the provider would give to each
request; every embedded function returns its Python result (an `Except` value,
since the Python code can raise) together with the list of provider requests it
issued, in order, so that frame properties ("no request of kind X was sent")
can be stated.
-/

namespace AwsGrobid

/-- A botocore `ClientError`, carrying the provider error code the Python code
branches on (`e.response['Error']['Code']`). -/
structure ClientError where
  code : String
  msg : String
  deriving DecidableEq, Repr

/-- The exceptions the embedded Python code can raise: a provider `ClientError`
re-raised, a `ValueError` with its message, or an `IndexError` from indexing an
empty response list. -/
inductive PyErr where
  | clientError (e : ClientError)
  | valueError (msg : String)
  | indexError
  deriving DecidableEq, Repr

/-- One ingress permission entry as passed to
`authorize_security_group_ingress` (protocol, from-port, to-port, CIDR). -/
structure IpPermission where
  ipProtocol : String
  fromPort : Nat
  toPort : Nat
  cidrIp : String
  deriving DecidableEq, Repr

/-- One EBS block-device specification as passed to `create_instances`. -/
structure EbsSpec where
  encrypted : Bool
  deleteOnTermination : Bool
  iops : Nat
  snapshotId : String
  volumeSize : Nat
  volumeType : String
  throughput : Nat
  deriving DecidableEq, Repr

/-- A device-name/EBS pair of the `BlockDeviceMappings` request field. -/
structure BlockDeviceMapping where
  deviceName : String
  ebs : EbsSpec
  deriving DecidableEq, Repr

/-- One entry of the `NetworkInterfaces` request field. -/
structure NetworkInterfaceSpec where
  associatePublicIpAddress : Bool
  deviceIndex : Nat
  groups : List String
  deriving DecidableEq, Repr

/-- A resource tag (key/value). -/
structure Tag where
  key : String
  value : String
  deriving DecidableEq, Repr

/-- The `MetadataOptions` request field. -/
structure MetadataOptions where
  httpEndpoint : String
  httpPutResponseHopLimit : Nat
  httpTokens : String
  deriving DecidableEq, Repr

/-- The `PrivateDnsNameOptions` request field. -/
structure PrivateDnsNameOptions where
  hostnameType : String
  enableResourceNameDnsARecord : Bool
  enableResourceNameDnsAAAARecord : Bool
  deriving DecidableEq, Repr

/-- The full parameter record of one `ec2_resource.create_instances` request,
mirroring the keyword arguments in `launch_instance`. -/
structure CreateInstancesParams where
  imageId : String
  instanceType : String
  blockDeviceMappings : List BlockDeviceMapping
  networkInterfaces : List NetworkInterfaceSpec
  tagSpecifications : List (String × List Tag)
  metadataOptions : MetadataOptions
  privateDnsNameOptions : PrivateDnsNameOptions
  minCount : Nat
  maxCount : Nat
  userData : String
  deriving DecidableEq, Repr

/-- An EC2 instance resource handle as the code reads it: identifier, reported
instance type, public IP address and public DNS name. -/
structure Instance where
  id : String
  instance_type : String
  public_ip_address : String
  public_dns_name : String
  deriving DecidableEq, Repr

/-- One row of the static `ubuntu-amis.json` table: region, architecture tag
and machine-image identifier. -/
structure AmiEntry where
  region : String
  arch : String
  ami_id : String
  deriving DecidableEq, Repr

/-- The provider requests the embedded code can issue.  `deleteSecurityGroup`
and `terminateInstance` are part of the provider's API surface; the launch path
is shown never to issue them. -/
inductive Req where
  | describeVpcs
  | createSecurityGroup (name : String) (description : String) (vpcId : String)
  | describeSecurityGroups (name : String)
  | authorizeIngress (groupId : String) (permissions : List IpPermission)
  | describeImages (imageId : String)
  | createInstances (params : CreateInstancesParams)
  | waitUntilRunning (instanceId : String)
  | loadInstance (instanceId : String)
  | terminateInstance (instanceId : String)
  | deleteSecurityGroup (groupId : String)
  deriving DecidableEq, Repr

/-- The oracle for one regional provider session: the response each provider
call would return, plus the static file data the code reads (`amiData` for
`ubuntu-amis.json`, `render` for the rendered Jinja startup-script template). -/
structure AwsEnv where
  vpcs : List String
  createSecurityGroupResp : String → String → String → Except ClientError String
  describeSecurityGroupsResp : String → List String
  authorizeIngressResp : String → List IpPermission → Except ClientError Unit
  describeImagesResp : String → List String
  createInstancesResp : CreateInstancesParams → Except ClientError (List Instance)
  waitUntilRunningResp : String → Except PyErr Unit
  loadInstanceResp : String → Instance
  terminateInstancesResp : String → Except ClientError Unit
  amiData : List AmiEntry
  render : String → Nat → String

/-- Embeds `get_default_vpc_id`: issues one `describe_vpcs` request; raises
`ValueError` when the `Vpcs` list is empty, else returns the first VPC id. -/
def get_default_vpc_id (env : AwsEnv) : Except PyErr String × List Req :=
  (match env.vpcs with
   | [] => .error (.valueError "No default VPC found in this region")
   | v :: _ => .ok v,
   [Req.describeVpcs])

/-- Embeds `create_security_group`: resolves the default VPC, then tries
`create_security_group`; on an `InvalidGroup.Duplicate` error falls back to
`describe_security_groups` by name and returns the first group id; any other
client error is re-raised. -/
def create_security_group (env : AwsEnv) (name : String) (description : String) :
    Except PyErr String × List Req :=
  match get_default_vpc_id env with
  | (.error e, l) => (.error e, l)
  | (.ok vpcId, l) =>
    match env.createSecurityGroupResp name description vpcId with
    | .ok gid => (.ok gid, l ++ [Req.createSecurityGroup name description vpcId])
    | .error e =>
      if e.code == "InvalidGroup.Duplicate" then
        match env.describeSecurityGroupsResp name with
        | gid :: _ =>
          (.ok gid,
           l ++ [Req.createSecurityGroup name description vpcId,
                 Req.describeSecurityGroups name])
        | [] =>
          (.error .indexError,
           l ++ [Req.createSecurityGroup name description vpcId,
                 Req.describeSecurityGroups name])
      else
        (.error (.clientError e), l ++ [Req.createSecurityGroup name description vpcId])

/-- The three ingress permissions `add_security_group_rules` requests:
TCP/22, TCP/443 and TCP/api_port, each from `0.0.0.0/0`. -/
def ingress_permissions (api_port : Nat) : List IpPermission :=
  [{ ipProtocol := "tcp", fromPort := 22, toPort := 22, cidrIp := "0.0.0.0/0" },
   { ipProtocol := "tcp", fromPort := 443, toPort := 443, cidrIp := "0.0.0.0/0" },
   { ipProtocol := "tcp", fromPort := api_port, toPort := api_port, cidrIp := "0.0.0.0/0" }]

/-- Embeds `add_security_group_rules`: issues one
`authorize_security_group_ingress` request with the three rules; re-raises a
client error unless its code is `InvalidPermission.Duplicate`. -/
def add_security_group_rules (env : AwsEnv) (security_group_id : String) (api_port : Nat) :
    Except PyErr Unit × List Req :=
  (match env.authorizeIngressResp security_group_id (ingress_permissions api_port) with
   | .ok _ => .ok ()
   | .error e =>
     if e.code != "InvalidPermission.Duplicate" then .error (.clientError e) else .ok (),
   [Req.authorizeIngress security_group_id (ingress_permissions api_port)])

/-- Embeds `get_image_default_snapshot_id`: issues one `describe_images`
request; raises `ValueError` when no image is returned, else returns the first
image's first block-device snapshot id. -/
def get_image_default_snapshot_id (env : AwsEnv) (vm_image_id : String) :
    Except PyErr String × List Req :=
  (match env.describeImagesResp vm_image_id with
   | [] => .error (.valueError ("No image found with ID " ++ vm_image_id))
   | s :: _ => .ok s,
   [Req.describeImages vm_image_id])

/-- Embeds `primary_instance_type = instance_type.split(".")[0]` of
`launch_instance`: the first component of a split on `"."` is exactly the
prefix of characters before the first dot (the whole string when no dot
occurs). -/
def primary_instance_type (instance_type : String) : List Char :=
  instance_type.data.takeWhile (fun c => c != '.')

/-- Embeds the architecture derivation of `launch_instance`: the architecture
is `arm64` when the letter `g` occurs in the family code
(`"g" in primary_instance_type`), else `amd64`. -/
def selected_arch (instance_type : String) : String :=
  if (primary_instance_type instance_type).contains 'g' then "arm64" else "amd64"

/-- Embeds the AMI-table scan of `launch_instance`: `vm_image_id` starts as the
empty string and becomes the `ami_id` of the first row matching region and
architecture. -/
def resolve_ami (ami_data : List AmiEntry) (region arch : String) : String :=
  match ami_data.find? (fun a => a.region == region && a.arch == arch) with
  | some a => a.ami_id
  | none => ""

/-- The image-resolution step of `launch_instance`: derive the architecture,
scan the table, and raise `ValueError` when the resulting id has length 0. -/
def image_resolution (ami_data : List AmiEntry) (region instance_type : String) :
    Except PyErr String :=
  let arch := selected_arch instance_type
  let vm_image_id := resolve_ami ami_data region arch
  if vm_image_id.length == 0 then
    .error (.valueError ("No AMI found for region " ++ region ++
      " and architecture " ++ arch))
  else
    .ok vm_image_id

/-- The `create_instances` parameter record `launch_instance` builds, given the
resolved image id and its default snapshot id. -/
def build_create_params (env : AwsEnv) (security_group_id : String)
    (instance_type instance_name : String) (storage_size : Nat)
    (docker_image : String) (api_port : Nat) (vm_image_id snapshot_id : String) :
    CreateInstancesParams :=
  { imageId := vm_image_id
    instanceType := instance_type
    blockDeviceMappings :=
      [{ deviceName := "/dev/sda1"
         ebs :=
           { encrypted := false
             deleteOnTermination := true
             iops := 3000
             snapshotId := snapshot_id
             volumeSize := storage_size
             volumeType := "gp3"
             throughput := 125 } }]
    networkInterfaces :=
      [{ associatePublicIpAddress := true
         deviceIndex := 0
         groups := [security_group_id] }]
    tagSpecifications := [("instance", [{ key := "Name", value := instance_name }])]
    metadataOptions :=
      { httpEndpoint := "enabled", httpPutResponseHopLimit := 2, httpTokens := "required" }
    privateDnsNameOptions :=
      { hostnameType := "ip-name"
        enableResourceNameDnsARecord := true
        enableResourceNameDnsAAAARecord := false }
    minCount := 1
    maxCount := 1
    userData := env.render docker_image api_port }

/-- Embeds `launch_instance`: renders the startup script, resolves the AMI for
region and derived architecture (raising when none is found, before any
provider request), fetches the image's default snapshot id, submits one
`create_instances` request, and returns the first created instance. -/
def launch_instance (env : AwsEnv) (region security_group_id : String)
    (instance_type instance_name : String) (storage_size : Nat)
    (docker_image : String) (api_port : Nat) :
    Except PyErr Instance × List Req :=
  match image_resolution env.amiData region instance_type with
  | .error e => (.error e, [])
  | .ok vm_image_id =>
    match get_image_default_snapshot_id env vm_image_id with
    | (.error e, l) => (.error e, l)
    | (.ok snapshot_id, l) =>
      let params := build_create_params env security_group_id instance_type
        instance_name storage_size docker_image api_port vm_image_id snapshot_id
      match env.createInstancesResp params with
      | .error e => (.error (.clientError e), l ++ [Req.createInstances params])
      | .ok [] => (.error .indexError, l ++ [Req.createInstances params])
      | .ok (i :: _) => (.ok i, l ++ [Req.createInstances params])

/-- The result record `EC2InstanceDetails` (the boto3 handle field is named
`instance_obj` here because `instance` is a Lean keyword). -/
structure EC2InstanceDetails where
  instance_obj : Instance
  instance_id : String
  instance_type : String
  public_ip : String
  public_dns : String
  api_url : String
  deriving DecidableEq, Repr

/-- Embeds `launch_grobid_api_instance`: create/find the security group, add
the ingress rules, launch the instance, wait until it is running, reload its
attributes and assemble the details record with
`api_url = "http://" + public_ip + ":" + api_port`. -/
def launch_grobid_api_instance (env : AwsEnv) (region instance_type : String)
    (storage_size : Nat) (instance_name docker_image : String) (api_port : Nat)
    (security_group_name security_group_description : String) :
    Except PyErr EC2InstanceDetails × List Req :=
  match create_security_group env security_group_name security_group_description with
  | (.error e, l1) => (.error e, l1)
  | (.ok security_group_id, l1) =>
    match add_security_group_rules env security_group_id api_port with
    | (.error e, l2) => (.error e, l1 ++ l2)
    | (.ok _, l2) =>
      match launch_instance env region security_group_id instance_type
          instance_name storage_size docker_image api_port with
      | (.error e, l3) => (.error e, l1 ++ l2 ++ l3)
      | (.ok inst, l3) =>
        match env.waitUntilRunningResp inst.id with
        | .error e => (.error e, l1 ++ l2 ++ l3 ++ [Req.waitUntilRunning inst.id])
        | .ok _ =>
          let inst2 := env.loadInstanceResp inst.id
          (.ok { instance_obj := inst2
                 instance_id := inst2.id
                 instance_type := inst2.instance_type
                 public_ip := inst2.public_ip_address
                 public_dns := inst2.public_dns_name
                 api_url :=
                   "http://" ++ inst2.public_ip_address ++ ":" ++ toString api_port },
           l1 ++ l2 ++ l3 ++ [Req.waitUntilRunning inst.id, Req.loadInstance inst.id])

/-- Modelled from the spec: the `terminate_instance` entry point.  Its
definition is absent from the source files (only the import in
`src/aws_grobid/__init__.py` declares the name); spec section 4.6 describes it:
input is an instance identifier and a region, it requests termination via the
provider, with no wait for completion, no confirmation step, and provider
errors propagate unchanged.  The `region` argument only selects the regional
provider session, which here is the `env` oracle. -/
def terminate_instance (env : AwsEnv) (instance_id : String) (region : String) :
    Except PyErr Unit × List Req :=
  (match env.terminateInstancesResp instance_id with
   | .ok _ => .ok ()
   | .error e => .error (.clientError e),
   [Req.terminateInstance instance_id])

/-- The module-level names `src/aws_grobid/core.py` defines. -/
def coreModuleNames : List String :=
  ["STATIC_DIR", "DEFAULT_STARTUP_SCRIPT_TEMPLATE_PATH", "UBUNTU_AMI_DATA_PATH",
   "log", "get_default_vpc_id", "create_security_group",
   "add_security_group_rules", "get_image_default_snapshot_id",
   "launch_instance", "EC2InstanceDetails", "launch_grobid_api_instance"]

/-- The names `src/aws_grobid/__init__.py` imports from `.core`. -/
def initFromCoreImports : List String :=
  ["deploy_and_wait_for_ready", "terminate_instance"]

/-- Python's `from .core import a, b` semantics: fails with `ImportError` at
the first requested name the module does not define. -/
def importFromCore : Except String Unit :=
  match initFromCoreImports.find? (fun n => !(coreModuleNames.contains n)) with
  | some n => .error ("ImportError: cannot import name " ++ n ++ " from aws_grobid.core")
  | none => .ok ()

/-- `true` exactly on the requests that would remove a previously created
resource: terminating an instance or deleting a security group. -/
def is_cleanup_request : Req → Bool
  | Req.terminateInstance _ => true
  | Req.deleteSecurityGroup _ => true
  | _ => false

/-- `true` exactly on `create_security_group` requests. -/
def is_create_sg_request : Req → Bool
  | Req.createSecurityGroup _ _ _ => true
  | _ => false

/-- `true` exactly on `create_instances` requests. -/
def is_create_instances_request : Req → Bool
  | Req.createInstances _ => true
  | _ => false

/-- A simulated provider session in which every call succeeds: one default
VPC, security-group creation yields `sg-0sim`, the AMI table has both
architecture rows for `us-west-2`, instance creation yields `i-0sim`, and the
reloaded instance reports type `m6a.4xlarge` with public IP `198.51.100.7`. -/
def simEnv : AwsEnv where
  vpcs := ["vpc-11111111"]
  createSecurityGroupResp := fun _ _ _ => .ok "sg-0sim"
  describeSecurityGroupsResp := fun _ => ["sg-0sim"]
  authorizeIngressResp := fun _ _ => .ok ()
  describeImagesResp := fun _ => ["snap-0sim"]
  createInstancesResp := fun p =>
    .ok [{ id := "i-0sim", instance_type := p.instanceType,
           public_ip_address := "", public_dns_name := "" }]
  waitUntilRunningResp := fun _ => .ok ()
  loadInstanceResp := fun iid =>
    { id := iid, instance_type := "m6a.4xlarge",
      public_ip_address := "198.51.100.7",
      public_dns_name := "ec2-198-51-100-7.us-west-2.compute.amazonaws.com" }
  terminateInstancesResp := fun _ => .ok ()
  amiData :=
    [{ region := "us-west-2", arch := "amd64", ami_id := "ami-0simx86" },
     { region := "us-west-2", arch := "arm64", ami_id := "ami-0simarm" }]
  render := fun img port => "docker run " ++ img ++ " port " ++ toString port

/-- `simEnv` with an empty default-VPC lookup result. -/
def emptyVpcEnv : AwsEnv := { simEnv with vpcs := [] }

/-- `simEnv` whose `create_security_group` call answers with the
duplicate-group error and whose lookup by name returns the existing group. -/
def dupSgEnv : AwsEnv :=
  { simEnv with
    createSecurityGroupResp := fun _ _ _ =>
      .error { code := "InvalidGroup.Duplicate", msg := "already exists" } }

/-- `simEnv` whose `create_security_group` call answers with a
non-duplicate provider error. -/
def otherSgErrEnv : AwsEnv :=
  { simEnv with
    createSecurityGroupResp := fun _ _ _ =>
      .error { code := "UnauthorizedOperation", msg := "denied" } }

/-- `simEnv` whose ingress-authorization call answers with the
duplicate-permission error. -/
def dupPermEnv : AwsEnv :=
  { simEnv with
    authorizeIngressResp := fun _ _ =>
      .error { code := "InvalidPermission.Duplicate", msg := "dup" } }

/-!  ## Claim theorems -/

/-- Claim C1: the `terminate_instance` entry point issues exactly one
termination request for the given instance identifier (so it waits for
nothing), returns normally when the provider does, and propagates any provider
error unchanged to the caller. -/
theorem terminate_instance_passthrough (env : AwsEnv) (iid region : String) :
    (terminate_instance env iid region).snd = [Req.terminateInstance iid] ∧
    (env.terminateInstancesResp iid = .ok () →
      (terminate_instance env iid region).fst = .ok ()) ∧
    (∀ e, env.terminateInstancesResp iid = .error e →
      (terminate_instance env iid region).fst = .error (.clientError e)) := by
  refine ⟨rfl, ?_, ?_⟩
  · intro h
    simp [terminate_instance, h]
  · intro e h
    simp [terminate_instance, h]

/-- Witness for C1 at a concrete successful provider and a concrete failing
provider. -/
theorem terminate_instance_passthrough_witness :
    (terminate_instance simEnv "i-0sim" "us-west-2").snd =
      [Req.terminateInstance "i-0sim"] ∧
    (terminate_instance simEnv "i-0sim" "us-west-2").fst = .ok () :=
  ⟨(terminate_instance_passthrough simEnv "i-0sim" "us-west-2").1,
   (terminate_instance_passthrough simEnv "i-0sim" "us-west-2").2.1 rfl⟩

/-- Claim C10: the package import fails: `__init__.py` imports
`deploy_and_wait_for_ready` and `terminate_instance` from `core`, but the core
module defines neither name (its entry point is named
`launch_grobid_api_instance`), so `from .core import ...` raises
`ImportError`. -/
theorem package_import_always_fails :
    importFromCore =
      .error
        "ImportError: cannot import name deploy_and_wait_for_ready from aws_grobid.core" ∧
    coreModuleNames.contains "deploy_and_wait_for_ready" = false ∧
    coreModuleNames.contains "terminate_instance" = false ∧
    coreModuleNames.contains "launch_grobid_api_instance" = true := by
  refine ⟨rfl, by decide, by decide, by decide⟩

/-- Claim C5: `add_security_group_rules` issues exactly one ingress request
holding exactly the three rules TCP/22, TCP/443 and TCP/api_port, each from
`0.0.0.0/0`, and it raises iff the provider reports an error whose code is not
`InvalidPermission.Duplicate`; a duplicate-permission error is swallowed. -/
theorem ingress_rules_exact_and_duplicate_swallowed (env : AwsEnv)
    (gid : String) (port : Nat) :
    (add_security_group_rules env gid port).snd =
      [Req.authorizeIngress gid
        [{ ipProtocol := "tcp", fromPort := 22, toPort := 22, cidrIp := "0.0.0.0/0" },
         { ipProtocol := "tcp", fromPort := 443, toPort := 443, cidrIp := "0.0.0.0/0" },
         { ipProtocol := "tcp", fromPort := port, toPort := port, cidrIp := "0.0.0.0/0" }]] ∧
    ((∃ e, (add_security_group_rules env gid port).fst = .error e) ↔
      (∃ ce, env.authorizeIngressResp gid (ingress_permissions port) = .error ce ∧
        ce.code ≠ "InvalidPermission.Duplicate")) := by
  constructor
  · rfl
  · cases h : env.authorizeIngressResp gid (ingress_permissions port) with
    | ok u => simp [add_security_group_rules, h]
    | error e =>
      by_cases hc : e.code = "InvalidPermission.Duplicate"
      · simp [add_security_group_rules, h, hc]
      · simp [add_security_group_rules, h, hc]

/-- Witness for C5: at a concrete provider that reports the
duplicate-permission error, the call returns normally and the single request
carries the three rules. -/
theorem ingress_rules_witness :
    (add_security_group_rules dupPermEnv "sg-0sim" 8060).snd =
      [Req.authorizeIngress "sg-0sim"
        [{ ipProtocol := "tcp", fromPort := 22, toPort := 22, cidrIp := "0.0.0.0/0" },
         { ipProtocol := "tcp", fromPort := 443, toPort := 443, cidrIp := "0.0.0.0/0" },
         { ipProtocol := "tcp", fromPort := 8060, toPort := 8060, cidrIp := "0.0.0.0/0" }]] ∧
    ¬ ∃ e, (add_security_group_rules dupPermEnv "sg-0sim" 8060).fst = .error e := by
  refine ⟨(ingress_rules_exact_and_duplicate_swallowed dupPermEnv "sg-0sim" 8060).1, ?_⟩
  intro hex
  have h := (ingress_rules_exact_and_duplicate_swallowed dupPermEnv "sg-0sim" 8060).2.mp hex
  rcases h with ⟨ce, hce, hne⟩
  exact hne (by cases hce; rfl)

/-- Claim C7: with an empty default-VPC lookup result, security-group
resolution raises the "No default VPC found" `ValueError` and issues no
`create_security_group` request. -/
theorem no_default_vpc_blocks_creation (env : AwsEnv) (name description : String)
    (h : env.vpcs = []) :
    (create_security_group env name description).fst =
      .error (.valueError "No default VPC found in this region") ∧
    ((create_security_group env name description).snd).all
      (fun r => !(is_create_sg_request r)) = true := by
  refine ⟨?_, ?_⟩ <;>
    simp [create_security_group, get_default_vpc_id, h, is_create_sg_request]

/-- Witness for C7 at the concrete environment with no default VPC. -/
theorem no_default_vpc_witness :
    (create_security_group emptyVpcEnv "grobid-sg" "desc").fst =
      .error (.valueError "No default VPC found in this region") ∧
    ((create_security_group emptyVpcEnv "grobid-sg" "desc").snd).all
      (fun r => !(is_create_sg_request r)) = true :=
  no_default_vpc_blocks_creation emptyVpcEnv "grobid-sg" "desc" rfl

/-- A nonempty string fails the `len(s) == 0` test of the Python code. -/
lemma length_beq_zero_eq_false (s : String) (h : s ≠ "") : (s.length == 0) = false := by
  obtain ⟨data⟩ := s
  cases data with
  | nil => exact absurd rfl h
  | cons c cs => rfl

/-- Claim C2: for a region having both architecture rows in the AMI table,
image resolution returns the region's arm64 image id when the family code
(before the first dot) contains the marker letter `g`, and the region's amd64
image id for every other family code. -/
theorem image_selection_by_arch (ami_data : List AmiEntry)
    (region instance_type : String) (armE amdE : AmiEntry)
    (harm : ami_data.find? (fun a => a.region == region && a.arch == "arm64") = some armE)
    (hamd : ami_data.find? (fun a => a.region == region && a.arch == "amd64") = some amdE)
    (harm_ne : armE.ami_id ≠ "") (hamd_ne : amdE.ami_id ≠ "") :
    image_resolution ami_data region instance_type =
      .ok (if (primary_instance_type instance_type).contains 'g'
           then armE.ami_id else amdE.ami_id) := by
  by_cases hg : (primary_instance_type instance_type).contains 'g' = true
  · simp only [image_resolution, selected_arch, resolve_ami, hg, if_true, harm,
      length_beq_zero_eq_false armE.ami_id harm_ne, Bool.false_eq_true, if_false]
  · rw [Bool.not_eq_true] at hg
    simp only [image_resolution, selected_arch, resolve_ami, hg, Bool.false_eq_true,
      if_false, hamd, length_beq_zero_eq_false amdE.ami_id hamd_ne]

/-- Witness for C2 at the simulated table: an `m6g` family selects the arm64
image; the same table also has the amd64 row. -/
theorem image_selection_witness :
    image_resolution simEnv.amiData "us-west-2" "m6g.large" = .ok "ami-0simarm" := by
  have h := image_selection_by_arch simEnv.amiData "us-west-2" "m6g.large"
    { region := "us-west-2", arch := "arm64", ami_id := "ami-0simarm" }
    { region := "us-west-2", arch := "amd64", ami_id := "ami-0simx86" }
    (by decide) (by decide) (by decide) (by decide)
  have hc : (primary_instance_type "m6g.large").contains 'g' = true := by decide
  simpa [hc] using h

/-- Claim C6: when no AMI-table row matches the region and the derived
architecture, `launch_instance` raises the "No AMI found" `ValueError` and
submits no `create_instances` request (its request log is free of them). -/
theorem image_not_found_blocks_launch (env : AwsEnv)
    (region security_group_id instance_type instance_name docker_image : String)
    (storage_size api_port : Nat)
    (h : env.amiData.find?
      (fun a => a.region == region && a.arch == selected_arch instance_type) = none) :
    (launch_instance env region security_group_id instance_type instance_name
        storage_size docker_image api_port).fst =
      .error (.valueError ("No AMI found for region " ++ region ++
        " and architecture " ++ selected_arch instance_type)) ∧
    ((launch_instance env region security_group_id instance_type instance_name
        storage_size docker_image api_port).snd).all
      (fun r => !(is_create_instances_request r)) = true := by
  refine ⟨?_, ?_⟩ <;>
    simp [launch_instance, image_resolution, resolve_ami, h]

/-- Witness for C6: a concrete environment whose table lacks every
`eu-central-1` row. -/
theorem image_not_found_witness :
    (launch_instance simEnv "eu-central-1" "sg-0sim" "m6a.4xlarge" "server"
        28 "grobid/software-mentions:0.8.1" 8060).fst =
      .error (.valueError ("No AMI found for region eu-central-1" ++
        " and architecture " ++ selected_arch "m6a.4xlarge")) ∧
    ((launch_instance simEnv "eu-central-1" "sg-0sim" "m6a.4xlarge" "server"
        28 "grobid/software-mentions:0.8.1" 8060).snd).all
      (fun r => !(is_create_instances_request r)) = true := by
  have h := image_not_found_blocks_launch simEnv "eu-central-1" "sg-0sim"
    "m6a.4xlarge" "server" "grobid/software-mentions:0.8.1" 28 8060 (by decide)
  simpa using h

/-- Claim C4: security-group creation is idempotent in the group name.  A
first call whose create request succeeds returns the created id; a second call
whose create request fails with `InvalidGroup.Duplicate` falls back to the
lookup by name and returns the same id, without raising; any provider error
with a different code propagates. -/
theorem create_security_group_idempotent
    (env1 env2 env3 : AwsEnv) (name description gid : String)
    (v1 v2 v3 : String) (vs1 vs2 vs3 rest : List String) (e2 e3 : ClientError)
    (h1v : env1.vpcs = v1 :: vs1)
    (h1c : env1.createSecurityGroupResp name description v1 = .ok gid)
    (h2v : env2.vpcs = v2 :: vs2)
    (h2c : env2.createSecurityGroupResp name description v2 = .error e2)
    (h2code : e2.code = "InvalidGroup.Duplicate")
    (h2d : env2.describeSecurityGroupsResp name = gid :: rest)
    (h3v : env3.vpcs = v3 :: vs3)
    (h3c : env3.createSecurityGroupResp name description v3 = .error e3)
    (h3code : e3.code ≠ "InvalidGroup.Duplicate") :
    (create_security_group env1 name description).fst = .ok gid ∧
    (create_security_group env2 name description).fst = .ok gid ∧
    (create_security_group env3 name description).fst = .error (.clientError e3) := by
  refine ⟨?_, ?_, ?_⟩
  · simp [create_security_group, get_default_vpc_id, h1v, h1c]
  · simp [create_security_group, get_default_vpc_id, h2v, h2c, h2code, h2d]
  · simp [create_security_group, get_default_vpc_id, h3v, h3c, h3code]

/-- Witness for C4 at concrete environments: a first creating call, a second
call answered with the duplicate-group error, and a call answered with an
unrelated error. -/
theorem create_security_group_idempotent_witness :
    (create_security_group simEnv "grobid-sg" "desc").fst = .ok "sg-0sim" ∧
    (create_security_group dupSgEnv "grobid-sg" "desc").fst = .ok "sg-0sim" ∧
    (create_security_group otherSgErrEnv "grobid-sg" "desc").fst =
      .error (.clientError { code := "UnauthorizedOperation", msg := "denied" }) :=
  create_security_group_idempotent simEnv dupSgEnv otherSgErrEnv
    "grobid-sg" "desc" "sg-0sim" "vpc-11111111" "vpc-11111111" "vpc-11111111"
    [] [] [] []
    { code := "InvalidGroup.Duplicate", msg := "already exists" }
    { code := "UnauthorizedOperation", msg := "denied" }
    rfl rfl rfl rfl rfl rfl rfl rfl (by decide)

/-- The security-group step never issues a cleanup (terminate/delete)
request. -/
lemma create_security_group_log_clean (env : AwsEnv) (name description : String) :
    ((create_security_group env name description).snd).all
      (fun r => !(is_cleanup_request r)) = true := by
  cases hv : env.vpcs with
  | nil => simp [create_security_group, get_default_vpc_id, hv, is_cleanup_request]
  | cons v vs =>
    cases hc : env.createSecurityGroupResp name description v with
    | ok gid =>
      simp [create_security_group, get_default_vpc_id, hv, hc, is_cleanup_request]
    | error e =>
      by_cases hcode : e.code = "InvalidGroup.Duplicate"
      · cases hd : env.describeSecurityGroupsResp name with
        | nil =>
          simp [create_security_group, get_default_vpc_id, hv, hc, hcode, hd,
            is_cleanup_request]
        | cons g gs =>
          simp [create_security_group, get_default_vpc_id, hv, hc, hcode, hd,
            is_cleanup_request]
      · simp [create_security_group, get_default_vpc_id, hv, hc, hcode,
          is_cleanup_request]

/-- The ingress step never issues a cleanup request. -/
lemma add_security_group_rules_log_clean (env : AwsEnv)
    (security_group_id : String) (api_port : Nat) :
    ((add_security_group_rules env security_group_id api_port).snd).all
      (fun r => !(is_cleanup_request r)) = true := by
  simp [add_security_group_rules, is_cleanup_request]

/-- The instance-launch step never issues a cleanup request. -/
lemma launch_instance_log_clean (env : AwsEnv)
    (region security_group_id instance_type instance_name docker_image : String)
    (storage_size api_port : Nat) :
    ((launch_instance env region security_group_id instance_type instance_name
        storage_size docker_image api_port).snd).all
      (fun r => !(is_cleanup_request r)) = true := by
  cases hres : image_resolution env.amiData region instance_type with
  | error e => simp [launch_instance, hres]
  | ok vid =>
    cases hdesc : env.describeImagesResp vid with
    | nil =>
      simp [launch_instance, hres, get_image_default_snapshot_id, hdesc,
        is_cleanup_request]
    | cons snap rest =>
      cases hci : env.createInstancesResp (build_create_params env security_group_id
          instance_type instance_name storage_size docker_image api_port vid snap) with
      | error e =>
        simp [launch_instance, hres, get_image_default_snapshot_id, hdesc, hci,
          is_cleanup_request]
      | ok insts =>
        cases insts with
        | nil =>
          simp [launch_instance, hres, get_image_default_snapshot_id, hdesc, hci,
            is_cleanup_request]
        | cons i is =>
          simp [launch_instance, hres, get_image_default_snapshot_id, hdesc, hci,
            is_cleanup_request]

/-- The whole launch orchestration never issues a cleanup request, whatever
the provider answers. -/
lemma launch_grobid_log_clean (env : AwsEnv) (region instance_type : String)
    (storage_size : Nat) (instance_name docker_image : String) (api_port : Nat)
    (security_group_name security_group_description : String) :
    ((launch_grobid_api_instance env region instance_type storage_size
        instance_name docker_image api_port security_group_name
        security_group_description).snd).all
      (fun r => !(is_cleanup_request r)) = true := by
  have hc1 := create_security_group_log_clean env security_group_name
    security_group_description
  cases h1 : create_security_group env security_group_name
      security_group_description with
  | mk r1 l1 =>
    rw [h1] at hc1
    cases r1 with
    | error e => simp [launch_grobid_api_instance, h1, hc1]
    | ok sgid =>
      have hc2 := add_security_group_rules_log_clean env sgid api_port
      cases h2 : add_security_group_rules env sgid api_port with
      | mk r2 l2 =>
        rw [h2] at hc2
        cases r2 with
        | error e =>
          simp only [launch_grobid_api_instance, h1, h2, List.all_append]
          simp [hc1, hc2]
        | ok u =>
          have hc3 := launch_instance_log_clean env region sgid instance_type
            instance_name docker_image storage_size api_port
          cases h3 : launch_instance env region sgid instance_type instance_name
              storage_size docker_image api_port with
          | mk r3 l3 =>
            rw [h3] at hc3
            cases r3 with
            | error e =>
              simp only [launch_grobid_api_instance, h1, h2, h3, List.all_append]
              simp [hc1, hc2, hc3]
            | ok inst =>
              cases h4 : env.waitUntilRunningResp inst.id with
              | error e =>
                simp only [launch_grobid_api_instance, h1, h2, h3, h4,
                  List.all_append]
                simp_all [is_cleanup_request]
              | ok u2 =>
                simp only [launch_grobid_api_instance, h1, h2, h3, h4,
                  List.all_append]
                simp_all [is_cleanup_request]

/-- Claim C9: when any stage of the launch orchestration fails, the sequence
aborts with that error and its request log contains no terminate-instance and
no delete-security-group request: resources created in earlier stages are left
in place. -/
theorem no_cleanup_on_failure (env : AwsEnv) (region instance_type : String)
    (storage_size : Nat) (instance_name docker_image : String) (api_port : Nat)
    (security_group_name security_group_description : String) (e : PyErr)
    (hfail : (launch_grobid_api_instance env region instance_type storage_size
        instance_name docker_image api_port security_group_name
        security_group_description).fst = .error e) :
    ((launch_grobid_api_instance env region instance_type storage_size
        instance_name docker_image api_port security_group_name
        security_group_description).snd).all
      (fun r => !(is_cleanup_request r)) = true :=
  launch_grobid_log_clean env region instance_type storage_size instance_name
    docker_image api_port security_group_name security_group_description

/-- Witness for C9: the launch against the no-default-VPC environment fails at
the first stage, and its request log holds no cleanup request. -/
theorem no_cleanup_on_failure_witness :
    ((launch_grobid_api_instance emptyVpcEnv "us-west-2" "m6a.4xlarge" 28
        "server" "grobid/software-mentions:0.8.1" 8060 "grobid-sg" "desc").snd).all
      (fun r => !(is_cleanup_request r)) = true :=
  no_cleanup_on_failure emptyVpcEnv "us-west-2" "m6a.4xlarge" 28 "server"
    "grobid/software-mentions:0.8.1" 8060 "grobid-sg" "desc"
    (.valueError "No default VPC found in this region") rfl

/-- Claim C8: every `create_instances` request the launcher submits asks for
exactly one instance (min and max count 1) and carries the unencrypted
delete-on-termination gp3 root volume of the requested size with IOPS 3000 and
throughput 125, public-IP auto-assignment with the resolved security group, the
`Name` tag with the given instance name, token-required metadata options with
hop limit 2, and the rendered startup script as user data; and when the
provider answers such a request with a single instance, the launcher returns
exactly that instance. -/
theorem create_instance_request_shape (env : AwsEnv)
    (region security_group_id instance_type instance_name docker_image : String)
    (storage_size api_port : Nat) (p : CreateInstancesParams) (inst : Instance)
    (hmem : Req.createInstances p ∈ (launch_instance env region security_group_id
      instance_type instance_name storage_size docker_image api_port).snd) :
    (p.minCount = 1 ∧ p.maxCount = 1) ∧
    (∃ snap, p.blockDeviceMappings =
      [{ deviceName := "/dev/sda1"
         ebs := { encrypted := false, deleteOnTermination := true, iops := 3000,
                  snapshotId := snap, volumeSize := storage_size,
                  volumeType := "gp3", throughput := 125 } }]) ∧
    p.networkInterfaces =
      [{ associatePublicIpAddress := true, deviceIndex := 0,
         groups := [security_group_id] }] ∧
    p.tagSpecifications = [("instance", [{ key := "Name", value := instance_name }])] ∧
    p.metadataOptions =
      { httpEndpoint := "enabled", httpPutResponseHopLimit := 2,
        httpTokens := "required" } ∧
    p.userData = env.render docker_image api_port ∧
    (env.createInstancesResp p = .ok [inst] →
      (launch_instance env region security_group_id instance_type instance_name
        storage_size docker_image api_port).fst = .ok inst) := by
  cases hres : image_resolution env.amiData region instance_type with
  | error e =>
    rw [launch_instance, hres] at hmem
    simp at hmem
  | ok vid =>
    cases hdesc : env.describeImagesResp vid with
    | nil =>
      rw [launch_instance, hres] at hmem
      simp [get_image_default_snapshot_id, hdesc] at hmem
    | cons snap rest =>
      have hp : p = build_create_params env security_group_id instance_type
          instance_name storage_size docker_image api_port vid snap := by
        rw [launch_instance, hres] at hmem
        cases hci : env.createInstancesResp (build_create_params env
            security_group_id instance_type instance_name storage_size
            docker_image api_port vid snap) with
        | error e =>
          simp [get_image_default_snapshot_id, hdesc, hci] at hmem
          exact hmem
        | ok insts =>
          cases insts with
          | nil =>
            simp [get_image_default_snapshot_id, hdesc, hci] at hmem
            exact hmem
          | cons i is =>
            simp [get_image_default_snapshot_id, hdesc, hci] at hmem
            exact hmem
      subst hp
      refine ⟨⟨rfl, rfl⟩, ⟨snap, rfl⟩, rfl, rfl, rfl, rfl, ?_⟩
      intro hok
      rw [launch_instance, hres]
      simp [get_image_default_snapshot_id, hdesc, hok]

/-- Witness for C8 against the simulated provider: the single request of the
simulated launch has the stated shape and the returned instance is the one the
provider created. -/
theorem create_instance_request_shape_witness :
    ((build_create_params simEnv "sg-0sim" "m6a.4xlarge" "server" 28
        "grobid/software-mentions:0.8.1" 8060 "ami-0simx86" "snap-0sim").minCount = 1 ∧
      (build_create_params simEnv "sg-0sim" "m6a.4xlarge" "server" 28
        "grobid/software-mentions:0.8.1" 8060 "ami-0simx86" "snap-0sim").maxCount = 1) ∧
    (∃ snap, (build_create_params simEnv "sg-0sim" "m6a.4xlarge" "server" 28
        "grobid/software-mentions:0.8.1" 8060 "ami-0simx86" "snap-0sim").blockDeviceMappings =
      [{ deviceName := "/dev/sda1"
         ebs := { encrypted := false, deleteOnTermination := true, iops := 3000,
                  snapshotId := snap, volumeSize := 28,
                  volumeType := "gp3", throughput := 125 } }]) ∧
    (build_create_params simEnv "sg-0sim" "m6a.4xlarge" "server" 28
        "grobid/software-mentions:0.8.1" 8060 "ami-0simx86" "snap-0sim").networkInterfaces =
      [{ associatePublicIpAddress := true, deviceIndex := 0, groups := ["sg-0sim"] }] ∧
    (build_create_params simEnv "sg-0sim" "m6a.4xlarge" "server" 28
        "grobid/software-mentions:0.8.1" 8060 "ami-0simx86" "snap-0sim").tagSpecifications =
      [("instance", [{ key := "Name", value := "server" }])] ∧
    (build_create_params simEnv "sg-0sim" "m6a.4xlarge" "server" 28
        "grobid/software-mentions:0.8.1" 8060 "ami-0simx86" "snap-0sim").metadataOptions =
      { httpEndpoint := "enabled", httpPutResponseHopLimit := 2, httpTokens := "required" } ∧
    (build_create_params simEnv "sg-0sim" "m6a.4xlarge" "server" 28
        "grobid/software-mentions:0.8.1" 8060 "ami-0simx86" "snap-0sim").userData =
      simEnv.render "grobid/software-mentions:0.8.1" 8060 ∧
    (simEnv.createInstancesResp (build_create_params simEnv "sg-0sim" "m6a.4xlarge"
        "server" 28 "grobid/software-mentions:0.8.1" 8060 "ami-0simx86" "snap-0sim") =
        .ok [{ id := "i-0sim", instance_type := "m6a.4xlarge",
               public_ip_address := "", public_dns_name := "" }] →
      (launch_instance simEnv "us-west-2" "sg-0sim" "m6a.4xlarge" "server"
        28 "grobid/software-mentions:0.8.1" 8060).fst =
        .ok { id := "i-0sim", instance_type := "m6a.4xlarge",
              public_ip_address := "", public_dns_name := "" }) :=
  create_instance_request_shape simEnv "us-west-2" "sg-0sim" "m6a.4xlarge"
    "server" "grobid/software-mentions:0.8.1" 28 8060
    (build_create_params simEnv "sg-0sim" "m6a.4xlarge" "server" 28
      "grobid/software-mentions:0.8.1" 8060 "ami-0simx86" "snap-0sim")
    { id := "i-0sim", instance_type := "m6a.4xlarge",
      public_ip_address := "", public_dns_name := "" }
    (by decide)

/-- Claim C3: launching against the fully successful simulated provider with
region `us-west-2`, instance size `m6a.4xlarge` and port 8060 succeeds, and
the returned details record has `api_url` equal to `"http://"` followed by the
instance's public IP, a colon and `"8060"`, while its `instance_type` field
echoes `m6a.4xlarge`. -/
theorem simulated_launch_details :
    ∃ d, (launch_grobid_api_instance simEnv "us-west-2" "m6a.4xlarge" 28
        "grobid-software-mentions-api-server" "grobid/software-mentions:0.8.1"
        8060 "grobid-software-mentions-api-server-sg"
        "Security group for GROBID Software Mentions API server").fst = .ok d ∧
      d.public_ip = "198.51.100.7" ∧
      d.api_url = "http://" ++ d.public_ip ++ ":" ++ toString 8060 ∧
      d.api_url = "http://198.51.100.7:8060" ∧
      d.instance_type = "m6a.4xlarge" := by
  refine ⟨_, rfl, ?_, ?_, ?_, ?_⟩ <;> decide

end AwsGrobid
